import Mathlib

/-!
Verification of the video-generation pipeline of the ebooks-reader-agent
repository (`video_generator.py`).

The Python module `VideoGenerator` is embedded shallowly:

* pure data (scenes, workflow templates, server outputs) become Lean
  structures;
* the external collaborators (the Gemini scene planner, the ComfyUI
  websocket queue, the HTTP file-view endpoint, and the moviepy encoder)
  become oracle fields of a `World` record, so a method of the class
  becomes a pure Lean function of the `World`;
* raised Python exceptions become `Except.error` values;
* the observable effects a claim speaks about (which workflows were sent
  over the websocket, which clip lists reached the stitcher, which files
  are on disk) are returned explicitly as instrumentation.
-/

namespace EbooksReader

/-- A single storyboard scene, from the pydantic model `Scene`. -/
structure Scene where
  scene_description : String
  visual_prompt : String
deriving Repr, DecidableEq

/-- The planner result, from the pydantic model `ChapterScenes`. -/
structure ChapterScenes where
  scenes : List Scene
deriving Repr, DecidableEq

/-- One node of a ComfyUI workflow template: an `inputs` table of
string-valued slots and an optional `_meta.title` (Python reads it with
`n.get("_meta", {}).get("title")`, giving `None` when absent). -/
structure WorkflowNode where
  title : Option String
  inputs : List (String × String)
deriving Repr, DecidableEq

/-- A workflow template: a mapping from node-id to node, in insertion
order (Python dict iteration order). -/
abbrev Workflow := List (String × WorkflowNode)

/-- One entry of an output node's `videos` list: `filename` is required
(`video_data['filename']`), `subfolder` optional
(`video_data.get('subfolder', '')`). -/
structure VideoData where
  filename : String
  subfolder : Option String
deriving Repr, DecidableEq

/-- The per-node payload of the `executed` message: the `videos` key may
be absent (`'videos' in outputs[node_id]`). -/
structure NodeOutput where
  videos : Option (List VideoData)
deriving Repr, DecidableEq

/-- `message['data']['output']`: mapping from node id to its output. -/
abbrev Outputs := List (String × NodeOutput)

/-- An HTTP response as seen by `requests.get`. -/
structure HttpResp where
  status_code : Nat
  content : String
deriving Repr, DecidableEq

/-- Exceptions that `_generate_clip_for_scene` can raise.
`valueErrorNodeNotFound` is the `ValueError` raised when no node of the
workflow carries the requested title (the spec's `ConfigurationError`);
`renderError` stands for any exception raised by the websocket
submit/await in `_queue_comfyui_prompt`; `indexError` is the
`IndexError` from `['videos'][0]` on an empty videos list. -/
inductive ClipError where
  | valueErrorNodeNotFound (title : String)
  | renderError (msg : String)
  | indexError
deriving Repr, DecidableEq

/-- Exceptions that `_stitch_clips_into_video` can raise.  `emptyInput`
models the exception `concatenate_videoclips` raises on an empty clip
list (the spec's `StitchError` for an empty input set); `encodeFail`
models a moviepy failure while opening or encoding the clips. -/
inductive StitchExn where
  | emptyInput
  | encodeFail (msg : String)
deriving Repr, DecidableEq

/-- An exception escaping `create_chapter_video`. -/
inductive PipeError where
  | clip (e : ClipError)
  | stitch (e : StitchExn)
deriving Repr, DecidableEq

/-- The external world: the Gemini planner response per chapter text,
the ComfyUI queue (websocket submit + await of the `executed` event,
which may raise), the HTTP file-view endpoint, and the moviepy encoder
(clip list and output path, which may raise). -/
structure World where
  planner : String → Except String ChapterScenes
  queue : Workflow → Except String Outputs
  httpGet : String → HttpResp
  encode : List String → String → Except String Unit

/-- `next((nid for nid, n in workflow.items() if n.get("_meta", {}).get("title") == prompt_node_title), None)`:
the first node id whose title matches. -/
def findNodeByTitle : Workflow → String → Option String
  | [], _ => none
  | (nid, n) :: rest, t =>
    if n.title = some t then some nid else findNodeByTitle rest t

/-- The located node id after the Python truthiness check
`if not target_node_id` (an empty-string node id is falsy and is treated
like a missing node). -/
def locateNode (wf : Workflow) (t : String) : Option String :=
  match findNodeByTitle wf t with
  | none => none
  | some nid => if nid = "" then none else some nid

/-- Python dict assignment on the `inputs` table: replace the value at
the key if present, else append the binding. -/
def setInput : List (String × String) → String → String → List (String × String)
  | [], k, v => [(k, v)]
  | (k0, v0) :: rest, k, v =>
    if k0 = k then (k0, v) :: rest else (k0, v0) :: setInput rest k v

/-- `workflow[target_node_id]["inputs"]["text"] = scene_prompt`: the
workflow with the text slot of the given node overwritten. -/
def setNodeText (wf : Workflow) (nid : String) (v : String) : Workflow :=
  wf.map (fun p =>
    if p.1 = nid then (p.1, { title := p.2.title, inputs := setInput p.2.inputs "text" v }) else p)

/-- `json.loads(json.dumps(self.base_workflow))`: a deep copy of the
template, rebuilt node by node. -/
def copyWorkflow : Workflow → Workflow
  | [] => []
  | (nid, n) :: rest => (nid, { title := n.title, inputs := n.inputs }) :: copyWorkflow rest

/-- The file-view URL built for one video entry:
`f"http://{server}/view?subfolder={video_data.get('subfolder', '')}&filename={video_data['filename']}"`. -/
def viewUrl (server : String) (vd : VideoData) : String :=
  "http://" ++ server ++ "/view?subfolder=" ++ vd.subfolder.getD "" ++
    "&filename=" ++ vd.filename

/-- The download loop of `_generate_clip_for_scene`: scan the outputs in
order; at the first node carrying a `videos` key take its first entry
and GET the file-view URL; on status 200 write the body under
`temp_clips/` and return the clip path; on any other status fall through
to the next output node; if no node yields a clip, return `none`. -/
def downloadFromOutputs (w : World) (server : String) :
    Outputs → Except ClipError (Option String)
  | [] => .ok none
  | (_, nout) :: rest =>
    match nout.videos with
    | none => downloadFromOutputs w server rest
    | some [] => .error .indexError
    | some (vd :: _) =>
      if (w.httpGet (viewUrl server vd)).status_code = 200 then
        .ok (some ("temp_clips/" ++ vd.filename))
      else
        downloadFromOutputs w server rest

/-- `_generate_clip_for_scene`: deep-copy the stored template, locate
the node titled `prompt_node_title` (raising `ValueError` when absent),
inject the scene prompt into its text slot, submit the workflow to the
queue and download the resulting artifact.  The second component is the
instrumentation: the list of workflows actually sent over the websocket
by this call. -/
def generate_clip_for_scene (w : World) (base : Workflow) (server : String)
    (scene_prompt : String) (prompt_node_title : String) :
    Except ClipError (Option String) × List Workflow :=
  let workflow := copyWorkflow base
  match locateNode workflow prompt_node_title with
  | none => (.error (.valueErrorNodeNotFound prompt_node_title), [])
  | some tid =>
    let wf := setNodeText workflow tid scene_prompt
    match w.queue wf with
    | .error m => (.error (.renderError m), [wf])
    | .ok outs => (downloadFromOutputs w server outs, [wf])

/-- `split_chapter_into_scenes`: the surrounding try/except turns any
exception of the model call or of the pydantic validation into `None`. -/
def split_chapter_into_scenes (resp : Except String ChapterScenes) :
    Option ChapterScenes :=
  match resp with
  | .ok s => some s
  | .error _ => none

/-- Result of the per-scene loop of `create_chapter_video`: the
collected clip paths (or the uncaught exception that aborted the loop),
the workflows sent over the websocket, and the clip files written to
disk along the way. -/
structure CollectOut where
  result : Except ClipError (List String)
  submitted : List Workflow
  written : List String
deriving Repr

/-- The per-scene loop of `create_chapter_video`: iterate the scenes in
order, calling `generate_clip_for_scene` on each `visual_prompt` with
node title `"Prompt_Input_Node"`; append the clip path when one is
returned, skip the scene when `None` is returned; there is no
try/except, so a raised exception aborts the loop. -/
def collectClips (w : World) (base : Workflow) (server : String) :
    List Scene → CollectOut
  | [] => { result := .ok [], submitted := [], written := [] }
  | s :: rest =>
    match generate_clip_for_scene w base server s.visual_prompt "Prompt_Input_Node" with
    | (.error e, subs) => { result := .error e, submitted := subs, written := [] }
    | (.ok none, subs) =>
      let o := collectClips w base server rest
      { result := o.result, submitted := subs ++ o.submitted, written := o.written }
    | (.ok (some p), subs) =>
      let o := collectClips w base server rest
      { result := o.result.map (fun ps => p :: ps),
        submitted := subs ++ o.submitted,
        written := p :: o.written }

/-- `_stitch_clips_into_video` acting on the filesystem `fs` (the set of
files on disk): open and concatenate the clips (`concatenate_videoclips`
raises on an empty list), encode `final_videos/<name>.mp4`, and on
success unlink every input clip.  Returns the result (or the raised
exception) together with the filesystem afterwards: on any failure the
unlink loop is never reached and `fs` is unchanged. -/
def stitch_clips_into_video (w : World) (fs : List String)
    (clip_paths : List String) (output_filename : String) :
    Except StitchExn String × List String :=
  if clip_paths.isEmpty then
    (.error .emptyInput, fs)
  else
    let final_path := "final_videos/" ++ output_filename ++ ".mp4"
    match w.encode clip_paths final_path with
    | .error m => (.error (.encodeFail m), fs)
    | .ok _ => (.ok final_path, fs.filter (fun f => !(clip_paths.contains f)))

/-- Add the files written during clip collection to the filesystem
(`clip_path.write_bytes`; writing an existing path overwrites it). -/
def fsAddAll (fs : List String) : List String → List String
  | [] => fs
  | p :: rest => fsAddAll (if fs.contains p then fs else fs ++ [p]) rest

/-- The observable outcome of one `create_chapter_video` call: its
return value (or the exception it raises), the workflows submitted to
the render server, the clip lists passed to the stitcher, and the final
filesystem. -/
structure RunOut where
  result : Except PipeError (Option String)
  submitted : List Workflow
  stitchCalls : List (List String)
  fs : List String
deriving Repr

/-- `create_chapter_video`: plan the scenes (returning `None` when the
planner yields no data or no scenes), run the per-scene loop, return
`None` when no clip was produced, else stitch.  Exceptions of the loop
and of the stitcher are not caught and abort the run. -/
def create_chapter_video (w : World) (base : Workflow) (server : String)
    (fs : List String) (chapter_text : String) (output_filename : String) :
    RunOut :=
  match split_chapter_into_scenes (w.planner chapter_text) with
  | none => { result := .ok none, submitted := [], stitchCalls := [], fs := fs }
  | some scenes_data =>
    if scenes_data.scenes.isEmpty then
      { result := .ok none, submitted := [], stitchCalls := [], fs := fs }
    else
      let c := collectClips w base server scenes_data.scenes
      let fs1 := fsAddAll fs c.written
      match c.result with
      | .error e =>
        { result := .error (.clip e), submitted := c.submitted, stitchCalls := [], fs := fs1 }
      | .ok clip_paths =>
        if clip_paths.isEmpty then
          { result := .ok none, submitted := c.submitted, stitchCalls := [], fs := fs1 }
        else
          let sres := stitch_clips_into_video w fs1 clip_paths output_filename
          match sres.1 with
          | .error e =>
            { result := .error (.stitch e), submitted := c.submitted,
              stitchCalls := [clip_paths], fs := sres.2 }
          | .ok p =>
            { result := .ok (some p), submitted := c.submitted,
              stitchCalls := [clip_paths], fs := sres.2 }

/-! ### Helper lemmas -/

theorem copyWorkflow_eq (wf : Workflow) : copyWorkflow wf = wf := by
  induction wf with
  | nil => rfl
  | cons p rest ih => cases p; simp [copyWorkflow, ih]

theorem collectClips_result_of_outcomes (w : World) (base : Workflow) (server : String)
    (scenes : List Scene) (out : Scene → Option String)
    (h : ∀ s ∈ scenes,
      (generate_clip_for_scene w base server s.visual_prompt "Prompt_Input_Node").1
        = .ok (out s)) :
    (collectClips w base server scenes).result = .ok (scenes.filterMap out) := by
  induction scenes with
  | nil => rfl
  | cons s rest ih =>
    have hs := h s (List.mem_cons_self _ _)
    have hrest := fun x hx => h x (List.mem_cons_of_mem s hx)
    simp only [collectClips]
    split
    case _ e subs heq => rw [heq] at hs; simp at hs
    case _ subs heq =>
      rw [heq] at hs
      simp only [List.filterMap_cons]
      rw [show out s = none from by simpa using hs.symm]
      exact ih hrest
    case _ p subs heq =>
      rw [heq] at hs
      simp only [List.filterMap_cons]
      rw [show out s = some p from by simpa using hs.symm]
      rw [ih hrest]
      rfl

theorem filterMap_filter_isSome (out : Scene → Option String) (l : List Scene) :
    (l.filter (fun s => (out s).isSome)).filterMap out = l.filterMap out := by
  induction l with
  | nil => rfl
  | cons s rest ih =>
    cases h : out s <;>
      simp [List.filter_cons, List.filterMap_cons, h, ih]

theorem findNodeByTitle_eq_none (wf : Workflow) (t : String)
    (h : ∀ nid n, (nid, n) ∈ wf → n.title ≠ some t) :
    findNodeByTitle wf t = none := by
  induction wf with
  | nil => rfl
  | cons p rest ih =>
    obtain ⟨nid, n⟩ := p
    simp only [findNodeByTitle]
    rw [if_neg (h nid n (List.mem_cons_self _ _))]
    exact ih (fun nid2 n2 hm => h nid2 n2 (List.mem_cons_of_mem _ hm))

theorem mem_setInput (ins : List (String × String)) (k v : String) (kv : String × String)
    (h : kv ∈ setInput ins k v) : kv.2 = v ∨ kv ∈ ins := by
  induction ins with
  | nil =>
    simp only [setInput, List.mem_singleton] at h
    left; rw [h]
  | cons kv0 rest ih =>
    obtain ⟨k0, v0⟩ := kv0
    simp only [setInput] at h
    by_cases hk : k0 = k
    · rw [if_pos hk] at h
      rcases List.mem_cons.mp h with h1 | h1
      · left; rw [h1]
      · right; exact List.mem_cons_of_mem _ h1
    · rw [if_neg hk] at h
      rcases List.mem_cons.mp h with h1 | h1
      · right; rw [h1]; exact List.mem_cons_self _ _
      · rcases ih h1 with h2 | h2
        · left; exact h2
        · right; exact List.mem_cons_of_mem _ h2

/-! ### Concrete instances used to exercise the theorems -/

/-- A sample scene named `n`. -/
def demoScene (n : String) : Scene :=
  { scene_description := n, visual_prompt := "prompt-" ++ n }

/-- A sample workflow template holding the expected prompt node. -/
def demoBase : Workflow :=
  [("1", { title := some "Prompt_Input_Node", inputs := [("text", "placeholder")] }),
   ("2", { title := some "SaveVideo", inputs := [] })]

/-- A sample `executed` payload carrying one video. -/
def demoOutputs : Outputs :=
  [("2", { videos := some [{ filename := "clip.mp4", subfolder := none }] })]

/-- A sample world: the planner fails, the render server always answers
with `demoOutputs`, downloads succeed, encoding succeeds. -/
def demoWorld : World :=
  { planner := fun _ => .error "no scenes",
    queue := fun _ => .ok demoOutputs,
    httpGet := fun _ => { status_code := 200, content := "bytes" },
    encode := fun _ _ => .ok () }

/-! ### Claims -/

/-- C3: for any chapter text for which the planner yields zero scenes
(or no scene data at all), `create_chapter_video` returns `None` and no
render job is submitted to the server. -/
theorem c3_zero_scenes_returns_null (w : World) (base : Workflow) (server : String)
    (fs : List String) (chapter_text output_filename : String)
    (h : ∀ sd, w.planner chapter_text = .ok sd → sd.scenes = []) :
    (create_chapter_video w base server fs chapter_text output_filename).result = .ok none
  ∧ (create_chapter_video w base server fs chapter_text output_filename).submitted = [] := by
  unfold create_chapter_video
  cases hp : w.planner chapter_text with
  | error m => simp [split_chapter_into_scenes, hp]
  | ok sd => simp [split_chapter_into_scenes, hp, h sd hp]

/-- C10: if the scene-planner step fails with any exception,
`split_chapter_into_scenes` returns `None` instead of propagating it,
and `create_chapter_video` consequently returns `None` for that chapter
text instead of raising. -/
theorem c10_planner_exception_yields_null (w : World) (base : Workflow) (server : String)
    (fs : List String) (chapter_text output_filename msg : String)
    (h : w.planner chapter_text = .error msg) :
    split_chapter_into_scenes (w.planner chapter_text) = none
  ∧ (create_chapter_video w base server fs chapter_text output_filename).result
      = .ok none := by
  constructor
  · rw [h]; rfl
  · unfold create_chapter_video; rw [h]; rfl

/-- C4: for every scene list in which no scene produces a clip (every
render job fails, i.e. yields no clip path), `create_chapter_video`
returns `None` and the stitcher is never invoked. -/
theorem c4_all_fail_returns_null_no_stitch (w : World) (base : Workflow) (server : String)
    (fs : List String) (chapter_text output_filename : String) (sd : ChapterScenes)
    (hplan : w.planner chapter_text = .ok sd)
    (hfail : ∀ s ∈ sd.scenes,
      (generate_clip_for_scene w base server s.visual_prompt "Prompt_Input_Node").1
        = .ok none) :
    (create_chapter_video w base server fs chapter_text output_filename).result = .ok none
  ∧ (create_chapter_video w base server fs chapter_text output_filename).stitchCalls
      = [] := by
  have hres := collectClips_result_of_outcomes w base server sd.scenes (fun _ => none) hfail
  have hnil : sd.scenes.filterMap (fun _ => (none : Option String)) = [] := by
    simp
  have hres' : (collectClips w base server sd.scenes).result = .ok [] := by
    rw [hres, hnil]
  unfold create_chapter_video
  rw [hplan]
  simp only [split_chapter_into_scenes]
  cases hsc : sd.scenes with
  | nil => simp
  | cons s rest =>
    rw [hsc] at hres'
    simp only [List.isEmpty_cons]
    rw [hres']
    simp

/-- C1: for every scene list where render jobs succeed exactly for a
subsequence S of the scenes and yield no clip for the rest, the clip
list passed by `create_chapter_video` to the stitcher is exactly the
clips of S, in the original relative order of those scenes: it equals
the successful clips of the filtered subsequence, and filtering the
failed scenes away does not disturb the order of the remainder. -/
theorem c1_stitcher_gets_successful_subsequence_in_order (w : World) (base : Workflow)
    (server : String) (fs : List String) (chapter_text output_filename : String)
    (sd : ChapterScenes) (out : Scene → Option String)
    (hplan : w.planner chapter_text = .ok sd)
    (hout : ∀ s ∈ sd.scenes,
      (generate_clip_for_scene w base server s.visual_prompt "Prompt_Input_Node").1
        = .ok (out s))
    (hne : sd.scenes.filterMap out ≠ []) :
    (create_chapter_video w base server fs chapter_text output_filename).stitchCalls
      = [(sd.scenes.filter (fun s => (out s).isSome)).filterMap out]
  ∧ (sd.scenes.filter (fun s => (out s).isSome)).filterMap out
      = sd.scenes.filterMap out := by
  have hres := collectClips_result_of_outcomes w base server sd.scenes out hout
  have hfe := filterMap_filter_isSome out sd.scenes
  refine ⟨?_, hfe⟩
  rw [hfe]
  unfold create_chapter_video
  rw [hplan]
  simp only [split_chapter_into_scenes]
  have hscenes : sd.scenes.isEmpty = false := by
    cases hsc : sd.scenes with
    | nil => rw [hsc] at hne; simp at hne
    | cons s rest => rfl
  rw [hscenes]
  simp only [Bool.false_eq_true, if_false, hres]
  have hcp : (sd.scenes.filterMap out).isEmpty = false := by
    cases hc : sd.scenes.filterMap out with
    | nil => exact absurd hc hne
    | cons p ps => rfl
  rw [hcp]
  simp only [Bool.false_eq_true, if_false]
  cases (stitch_clips_into_video w (fsAddAll fs
      (collectClips w base server sd.scenes).written)
      (sd.scenes.filterMap out) output_filename).1 <;> rfl

/-- World for the C3 witness: the planner yields an empty scene list. -/
def c3World : World := { demoWorld with planner := fun _ => .ok { scenes := [] } }

/-- Witness for C3 at a concrete chapter whose planner yields zero scenes. -/
theorem c3_witness :
    (create_chapter_video c3World demoBase "srv" [] "ch" "out").result = .ok none
  ∧ (create_chapter_video c3World demoBase "srv" [] "ch" "out").submitted = [] :=
  c3_zero_scenes_returns_null c3World demoBase "srv" [] "ch" "out"
    (fun sd h => by injection h with h2; rw [← h2])

/-- Witness for C10 at a concrete world whose planner raises. -/
theorem c10_witness :
    split_chapter_into_scenes (demoWorld.planner "ch") = none
  ∧ (create_chapter_video demoWorld demoBase "srv" [] "ch" "out").result = .ok none :=
  c10_planner_exception_yields_null demoWorld demoBase "srv" [] "ch" "out" "no scenes" rfl

/-- World for the C4 witness: one scene, whose download always fails
with HTTP 500, so no clip is ever produced. -/
def c4World : World :=
  { demoWorld with
    planner := fun _ => .ok { scenes := [demoScene "a"] },
    httpGet := fun _ => { status_code := 500, content := "" } }

/-- Witness for C4 at a concrete run where the only scene's download fails. -/
theorem c4_witness :
    (create_chapter_video c4World demoBase "srv" [] "ch" "out").result = .ok none
  ∧ (create_chapter_video c4World demoBase "srv" [] "ch" "out").stitchCalls = [] :=
  c4_all_fail_returns_null_no_stitch c4World demoBase "srv" [] "ch" "out"
    { scenes := [demoScene "a"] } rfl
    (fun s hs => by
      simp only [List.mem_singleton] at hs
      subst hs
      rfl)

/-- Outcome function for the C1 witness: scene b fails, a and c succeed. -/
def c1Out (s : Scene) : Option String :=
  if s.visual_prompt = "prompt-b" then none else some "temp_clips/clip.mp4"

/-- World for the C1 witness: three scenes; the job for scene b comes
back with no output node, the other two jobs produce a video. -/
def c1World : World :=
  { demoWorld with
    planner := fun _ => .ok { scenes := [demoScene "a", demoScene "b", demoScene "c"] },
    queue := fun wf =>
      if wf.contains
          ("1", { title := some "Prompt_Input_Node", inputs := [("text", "prompt-b")] })
      then .ok []
      else .ok demoOutputs }

/-- Witness for C1 at a concrete run where scenes a and c succeed and
scene b fails: the stitcher receives exactly the two clips, in order. -/
theorem c1_witness :
    (create_chapter_video c1World demoBase "srv" [] "ch" "out").stitchCalls
      = [["temp_clips/clip.mp4", "temp_clips/clip.mp4"]] := by
  have h := c1_stitcher_gets_successful_subsequence_in_order c1World demoBase "srv" []
    "ch" "out" { scenes := [demoScene "a", demoScene "b", demoScene "c"] } c1Out rfl
    (fun s hs => by
      simp only [List.mem_cons, List.not_mem_nil, or_false] at hs
      rcases hs with h1 | h1 | h1 <;> subst h1 <;> rfl)
    (by decide)
  exact h.1.trans (by decide)

/-- C5: for every workflow template containing no node whose meta title
equals the given input-slot name, `generate_clip_for_scene` raises the
missing-node error and no workflow is ever sent to the server (the
submitted-workflow trace is empty, so the failure precedes any network
communication). -/
theorem c5_missing_node_raises_before_network (w : World) (base : Workflow)
    (server : String) (scene_prompt prompt_node_title : String)
    (h : ∀ nid n, (nid, n) ∈ base → n.title ≠ some prompt_node_title) :
    generate_clip_for_scene w base server scene_prompt prompt_node_title
      = (.error (.valueErrorNodeNotFound prompt_node_title), []) := by
  have hfind : findNodeByTitle (copyWorkflow base) prompt_node_title = none := by
    rw [copyWorkflow_eq]
    exact findNodeByTitle_eq_none base prompt_node_title h
  simp only [generate_clip_for_scene, locateNode, hfind]

/-- Workflow for the C5 witness: no node has the expected title. -/
def c5Base : Workflow :=
  [("3", { title := some "Other_Node", inputs := [("text", "x")] })]

/-- Witness for C5 at a concrete template missing the prompt node. -/
theorem c5_witness :
    generate_clip_for_scene demoWorld c5Base "srv" "p" "Prompt_Input_Node"
      = (.error (.valueErrorNodeNotFound "Prompt_Input_Node"), []) :=
  c5_missing_node_raises_before_network demoWorld c5Base "srv" "p" "Prompt_Input_Node"
    (fun nid n hm => by
      simp only [c5Base, List.mem_singleton, Prod.mk.injEq] at hm
      rw [hm.2]
      decide)

/-- C7: for every non-empty clip list, if the stitch succeeds then every
input clip has been unlinked from the filesystem, and if the stitch
raises then the filesystem is unchanged (no input clip is deleted). -/
theorem c7_cleanup_exactly_on_success (w : World) (fs clip_paths : List String)
    (output_filename : String) (hne : clip_paths ≠ []) :
    (∀ r, (stitch_clips_into_video w fs clip_paths output_filename).1 = .ok r →
        ∀ p ∈ clip_paths, p ∉ (stitch_clips_into_video w fs clip_paths output_filename).2)
  ∧ (∀ e, (stitch_clips_into_video w fs clip_paths output_filename).1 = .error e →
        (stitch_clips_into_video w fs clip_paths output_filename).2 = fs) := by
  have hie : clip_paths.isEmpty = false := by
    cases clip_paths with
    | nil => exact absurd rfl hne
    | cons a l => rfl
  unfold stitch_clips_into_video
  rw [hie]
  simp only [Bool.false_eq_true, if_false]
  cases henc : w.encode clip_paths ("final_videos/" ++ output_filename ++ ".mp4") with
  | error m =>
    refine ⟨fun r hr => ?_, fun e he => rfl⟩
    simp at hr
  | ok u =>
    refine ⟨fun r hr p hp hmem => ?_, fun e he => ?_⟩
    · rw [List.mem_filter] at hmem
      have h2 := hmem.2
      rw [Bool.not_eq_true'] at h2
      rw [show clip_paths.contains p = List.elem p clip_paths from rfl,
        List.elem_eq_true_of_mem hp] at h2
      simp at h2
    · simp at he

/-- Witness for C7 at a concrete successful stitch: the input clip is
deleted from the filesystem. -/
theorem c7_witness :
    "temp_clips/a.mp4" ∉
      (stitch_clips_into_video demoWorld ["temp_clips/a.mp4", "other"]
        ["temp_clips/a.mp4"] "out").2 :=
  (c7_cleanup_exactly_on_success demoWorld ["temp_clips/a.mp4", "other"]
      ["temp_clips/a.mp4"] "out" (by decide)).1
    "final_videos/out.mp4" rfl "temp_clips/a.mp4" (by decide)

/-- C8: invoking the stitcher directly with an empty clip list raises
the empty-input error, and the coordinator never passes an empty clip
list to the stitcher. -/
theorem c8_empty_stitch_raises_and_coordinator_never_empty (w : World)
    (fs : List String) (output_filename : String) (base : Workflow) (server : String)
    (fs2 : List String) (chapter_text output_filename2 : String) :
    (stitch_clips_into_video w fs [] output_filename).1 = .error .emptyInput
  ∧ ∀ c ∈ (create_chapter_video w base server fs2 chapter_text output_filename2).stitchCalls,
      c ≠ [] := by
  refine ⟨rfl, fun c hc => ?_⟩
  unfold create_chapter_video at hc
  cases hp : split_chapter_into_scenes (w.planner chapter_text) with
  | none => rw [hp] at hc; simp at hc
  | some sd =>
    rw [hp] at hc
    dsimp only at hc
    by_cases hsc : sd.scenes.isEmpty
    · rw [if_pos hsc] at hc; simp at hc
    · rw [if_neg hsc] at hc
      cases hres : (collectClips w base server sd.scenes).result with
      | error e => rw [hres] at hc; simp at hc
      | ok clip_paths =>
        rw [hres] at hc
        dsimp only at hc
        by_cases hcp : clip_paths.isEmpty
        · rw [if_pos hcp] at hc; simp at hc
        · rw [if_neg hcp] at hc
          have hcne : c = clip_paths := by
            cases hst : (stitch_clips_into_video w
                (fsAddAll fs2 (collectClips w base server sd.scenes).written)
                clip_paths output_filename2).1 <;>
              rw [hst] at hc <;> simpa using hc
          rw [hcne]
          intro hnil
          rw [hnil] at hcp
          exact hcp rfl

theorem generate_submitted_of_locate (w : World) (base : Workflow) (server : String)
    (p t tid : String) (h : locateNode (copyWorkflow base) t = some tid) :
    (generate_clip_for_scene w base server p t).2
      = [setNodeText (copyWorkflow base) tid p] := by
  simp only [generate_clip_for_scene, h]
  cases w.queue (setNodeText (copyWorkflow base) tid p) <;> rfl

theorem collectClips_submitted_shape (w : World) (base : Workflow) (server : String)
    (scenes : List Scene) (tid : String)
    (h : locateNode (copyWorkflow base) "Prompt_Input_Node" = some tid) :
    ∀ wf ∈ (collectClips w base server scenes).submitted,
      ∃ s, s ∈ scenes ∧ wf = setNodeText base tid s.visual_prompt := by
  induction scenes with
  | nil => intro wf hwf; simp [collectClips] at hwf
  | cons s rest ih =>
    intro wf hwf
    have hsub := generate_submitted_of_locate w base server s.visual_prompt
      "Prompt_Input_Node" tid h
    rw [copyWorkflow_eq] at hsub
    simp only [collectClips] at hwf
    split at hwf
    case _ e subs heq =>
      have hsubs : subs = [setNodeText base tid s.visual_prompt] := by
        rw [← hsub, heq]
      rw [hsubs] at hwf
      rw [List.mem_singleton] at hwf
      exact ⟨s, List.mem_cons_self _ _, hwf⟩
    case _ subs heq =>
      have hsubs : subs = [setNodeText base tid s.visual_prompt] := by
        rw [← hsub, heq]
      rw [hsubs] at hwf
      rcases List.mem_append.mp hwf with h1 | h1
      · rw [List.mem_singleton] at h1
        exact ⟨s, List.mem_cons_self _ _, h1⟩
      · obtain ⟨s2, hs2, hwf2⟩ := ih wf h1
        exact ⟨s2, List.mem_cons_of_mem _ hs2, hwf2⟩
    case _ q subs heq =>
      have hsubs : subs = [setNodeText base tid s.visual_prompt] := by
        rw [← hsub, heq]
      rw [hsubs] at hwf
      rcases List.mem_append.mp hwf with h1 | h1
      · rw [List.mem_singleton] at h1
        exact ⟨s, List.mem_cons_self _ _, h1⟩
      · obtain ⟨s2, hs2, hwf2⟩ := ih wf h1
        exact ⟨s2, List.mem_cons_of_mem _ hs2, hwf2⟩

/-- C9: template isolation.  The deep copy taken per scene leaves the
stored base template equal to itself, every workflow submitted during a
run is the base template with only that scene's prompt injected at the
located node (so scene A's mutation is invisible when scene B's job is
built), and a prompt value absent from the base template and different
from scene B's own prompt occurs in no input slot of scene B's submitted
workflow. -/
theorem c9_template_isolation (w : World) (base : Workflow) (server : String)
    (scenes : List Scene) (tid : String)
    (hloc : locateNode (copyWorkflow base) "Prompt_Input_Node" = some tid) :
    copyWorkflow base = base
  ∧ (∀ wf ∈ (collectClips w base server scenes).submitted,
      ∃ s, s ∈ scenes ∧ wf = setNodeText base tid s.visual_prompt)
  ∧ (∀ pA pB : String, pA ≠ pB →
      (∀ nid n, (nid, n) ∈ base → ∀ kv ∈ n.inputs, kv.2 ≠ pA) →
      ∀ nid n, (nid, n) ∈ setNodeText base tid pB → ∀ kv ∈ n.inputs, kv.2 ≠ pA) := by
  refine ⟨copyWorkflow_eq base, collectClips_submitted_shape w base server scenes tid hloc,
    fun pA pB hAB hbase nid n hmem kv hkv => ?_⟩
  simp only [setNodeText, List.mem_map] at hmem
  obtain ⟨⟨nid0, n0⟩, hmem0, heq⟩ := hmem
  by_cases hid : nid0 = tid
  · rw [if_pos hid] at heq
    have hn : n = { title := n0.title, inputs := setInput n0.inputs "text" pB } := by
      have := congrArg Prod.snd heq
      simpa using this.symm
    rw [hn] at hkv
    simp only at hkv
    rcases mem_setInput n0.inputs "text" pB kv hkv with h1 | h1
    · rw [h1]; exact fun hcon => hAB hcon.symm
    · exact hbase nid0 n0 hmem0 kv h1
  · rw [if_neg hid] at heq
    have hn : n = n0 := by
      have := congrArg Prod.snd heq
      simpa using this.symm
    rw [hn] at hkv
    exact hbase nid0 n0 hmem0 kv hkv

/-- Witness for C9: at the sample template the hypotheses hold (the
prompt node is located at id 1) and the deep copy equals the original. -/
theorem c9_witness : copyWorkflow demoBase = demoBase :=
  (c9_template_isolation demoWorld demoBase "srv" [demoScene "a", demoScene "b"] "1"
    (by decide)).1

/-- World for the C2 counterexample: the planner yields two scenes and
the websocket queue raises on every submission. -/
def c2World : World :=
  { demoWorld with
    planner := fun _ => .ok { scenes := [demoScene "a", demoScene "b"] },
    queue := fun _ => .error "socket closed" }

/-- C2 counterexample: with two scenes and a websocket exception on the
first submission, `create_chapter_video` does not catch the exception
and skip the scene — it aborts, raising the error itself, and the
second scene is never submitted (only scene a's workflow appears in the
submission trace).  This refutes the claim that any per-scene exception
is caught at the coordinator boundary. -/
theorem c2_counterexample :
    (create_chapter_video c2World demoBase "srv" [] "ch" "out").result
      = .error (.clip (.renderError "socket closed"))
  ∧ (create_chapter_video c2World demoBase "srv" [] "ch" "out").submitted
      = [setNodeText demoBase "1" "prompt-a"] :=
  ⟨rfl, rfl⟩

/-- C2 amended: `create_chapter_video` has no exception handler around
the per-scene loop, so a raised render/download exception aborts the
whole run; a scene is skipped with the run continuing over the remaining
scenes only when its generation returns no clip without raising. -/
theorem c2_amended_skip_only_without_exception (w : World) (base : Workflow)
    (server : String) (s : Scene) (rest : List Scene)
    (h : (generate_clip_for_scene w base server s.visual_prompt "Prompt_Input_Node").1
      = .ok none) :
    (collectClips w base server (s :: rest)).result
      = (collectClips w base server rest).result := by
  simp only [collectClips]
  split
  case _ e subs heq => rw [heq] at h; simp at h
  case _ subs heq => rfl
  case _ p subs heq => rw [heq] at h; simp at h

/-- Witness for the amended C2 at a concrete run whose first scene's
download fails without raising: the scene is skipped and the loop result
is that of the remaining scenes. -/
theorem c2_amended_witness :
    (collectClips c4World demoBase "srv" [demoScene "a", demoScene "b"]).result
      = (collectClips c4World demoBase "srv" [demoScene "b"]).result :=
  c2_amended_skip_only_without_exception c4World demoBase "srv" (demoScene "a")
    [demoScene "b"] rfl

/-- World for the C6 counterexample: the file-view endpoint answers
HTTP 500 to every GET. -/
def c6World : World :=
  { demoWorld with httpGet := fun _ => { status_code := 500, content := "" } }

/-- C6 counterexample: with the render server returning one video output
whose GET answers HTTP 500, `generate_clip_for_scene` does not fail with
a download error — it returns `Except.ok none` (silently yielding no
file), refuting the claim that a non-success status raises a
`DownloadError`. -/
theorem c6_counterexample :
    (generate_clip_for_scene c6World demoBase "srv" "p" "Prompt_Input_Node").1
      = .ok none :=
  rfl

/-- C6 amended: a non-success HTTP status on an artifact GET raises
nothing; the download loop merely falls through to the next output node,
and when no output node yields a success the operation returns no file
(`None`), so the scene is skipped silently. -/
theorem c6_amended_nonsuccess_yields_none (w : World) (server : String)
    (outs : Outputs)
    (h : ∀ nid nout vd vds, (nid, nout) ∈ outs → nout.videos = some (vd :: vds) →
      (w.httpGet (viewUrl server vd)).status_code ≠ 200)
    (hnz : ∀ nid nout, (nid, nout) ∈ outs → nout.videos ≠ some []) :
    downloadFromOutputs w server outs = .ok none := by
  induction outs with
  | nil => rfl
  | cons q rest ih =>
    obtain ⟨nid, nout⟩ := q
    have hrest := ih
      (fun nid2 nout2 vd vds hm hv => h nid2 nout2 vd vds (List.mem_cons_of_mem _ hm) hv)
      (fun nid2 nout2 hm => hnz nid2 nout2 (List.mem_cons_of_mem _ hm))
    simp only [downloadFromOutputs]
    cases hv : nout.videos with
    | none => exact hrest
    | some l =>
      cases l with
      | nil => exact absurd hv (hnz nid nout (List.mem_cons_self _ _))
      | cons vd vds =>
        dsimp only
        rw [if_neg (h nid nout vd vds (List.mem_cons_self _ _) hv)]
        exact hrest

/-- Witness for the amended C6 at a concrete output manifest whose only
video GET answers HTTP 500: the download yields no file and no error. -/
theorem c6_amended_witness :
    downloadFromOutputs c6World "srv" demoOutputs = .ok none :=
  c6_amended_nonsuccess_yields_none c6World "srv" demoOutputs
    (fun _ _ vd _ _ _ => show (500 : Nat) ≠ 200 by decide)
    (fun nid nout hm => by
      simp only [demoOutputs, List.mem_singleton, Prod.mk.injEq] at hm
      rw [hm.2]
      decide)

end EbooksReader
